import Mathlib

/-
Verification of the parametric surface generators of plotpy
(src/surface_geometry.rs): Surface::draw_plane_nzz, Surface::draw_hemisphere,
Surface::draw_superquadric and Surface::draw_sphere.

Floating-point arithmetic on coordinates is idealized over the real numbers
(exact sin, cos, powers and field operations); the `self.draw` call at the end
of every generator only appends rendering text to a buffer and does not touch
the returned matrices, so it is omitted.  An auxiliary idealized IEEE-754
scalar type `F64` models the validation prologues of the generators at the
floating-point level, where special values (NaN, infinities and the negative
zero) decide the outcome of the comparisons.

The helpers suq_cos, suq_sin and generate3d come from the external russell_lab
crate, whose source is not part of this repository; they are modelled from the
specification's description of them.
-/

namespace Plotpy

/-- Numeric matrix as produced by russell_lab Matrix::new(nrow, ncol): a number
of rows, a number of columns, and real entries indexed by row and column
(entries outside the stated dimensions are irrelevant junk). -/
structure Matrix where
  nrow : ℕ
  ncol : ℕ
  entry : ℕ → ℕ → ℝ

/-- Modelled from the spec: russell_lab suq_cos (missing from src/), the signed
power helper scos(t,p) = sign(cos t) * |cos t|^p, a real power of the absolute
value carrying the sign of cos t. -/
noncomputable def suq_cos (t p : ℝ) : ℝ :=
  Real.sign (Real.cos t) * |Real.cos t| ^ p

/-- Modelled from the spec: russell_lab suq_sin (missing from src/), the signed
power helper ssin(t,p) = sign(sin t) * |sin t|^p. -/
noncomputable def suq_sin (t p : ℝ) : ℝ :=
  Real.sign (Real.sin t) * |Real.sin t| ^ p

/-- Degree to radian conversion as written in the source: a * PI / 180.0 . -/
noncomputable def deg2rad (a : ℝ) : ℝ := a * Real.pi / 180

/-- Linear grid sample: the source's v_min + (i as f64) * d_v with
d_v = (v_max - v_min) / n. -/
noncomputable def linStep (vmin vmax : ℝ) (n : ℕ) (i : ℕ) : ℝ :=
  vmin + (i : ℝ) * ((vmax - vmin) / (n : ℝ))

/-- Modelled from the spec: russell_lab generate3d(xmin, xmax, ymin, ymax, nx,
ny, calc_z) (missing from src/) evaluates calc_z over an nx-by-ny grid of
points linearly spaced in [xmin, xmax] along rows and [ymin, ymax] along
columns, returning the three coordinate matrices of the meshgrid. -/
noncomputable def generate3d (xmin xmax ymin ymax : ℝ) (nx ny : ℕ)
    (calc_z : ℝ → ℝ → ℝ) : Matrix × Matrix × Matrix :=
  (⟨nx, ny, fun i _ => linStep xmin xmax (nx - 1) i⟩,
   ⟨nx, ny, fun _ j => linStep ymin ymax (ny - 1) j⟩,
   ⟨nx, ny, fun i j => calc_z (linStep xmin xmax (nx - 1) i) (linStep ymin ymax (ny - 1) j)⟩)

/-- Surface::draw_plane_nzz (surface_geometry.rs lines 22-48): plane through p
with normal n (nonzero z-component), solving the plane equation for z over an
(nx+1)-by-(ny+1) grid.  The local d = -n[0]*p[0] - n[1]*p[1] - n[2]*p[2] is
inlined into the closure. -/
noncomputable def draw_plane_nzz (p n : List ℝ) (xmin xmax ymin ymax : ℝ)
    (nx ny : ℕ) : Except String (Matrix × Matrix × Matrix) :=
  if p.length ≠ 3 ∨ n.length ≠ 3 then
    .error "p.len() and n.len() must be equal to 3"
  else if |n.getD 2 0| < 1 / 10 ^ 10 then
    .error "the z-component of the normal vector cannot be zero"
  else if nx < 1 ∨ ny < 1 then
    .error "nx and ny must be greater than or equal to 2"
  else
    .ok (generate3d xmin xmax ymin ymax (nx + 1) (ny + 1) (fun x y =>
      (-(-n.getD 0 0 * p.getD 0 0 - n.getD 1 0 * p.getD 1 0 - n.getD 2 0 * p.getD 2 0)
        - n.getD 0 0 * x - n.getD 1 0 * y) / n.getD 2 0))

/-- The x matrix built by Surface::draw_hemisphere:
x[i][j] = c[0] + r * cos(alpha_i) * sin(theta_j) with
alpha_i = a_min + i * d_alpha and theta_j = j * ((PI/2) / n_theta). -/
noncomputable def hemisphereX (c : List ℝ) (r alpha_min alpha_max : ℝ)
    (n_alpha n_theta : ℕ) : Matrix :=
  ⟨n_alpha + 1, n_theta + 1, fun i j =>
    c.getD 0 0 + r * Real.cos (linStep (deg2rad alpha_min) (deg2rad alpha_max) n_alpha i)
      * Real.sin ((j : ℝ) * (Real.pi / 2 / (n_theta : ℝ)))⟩

/-- The y matrix built by Surface::draw_hemisphere:
y[i][j] = c[1] + r * sin(alpha_i) * sin(theta_j). -/
noncomputable def hemisphereY (c : List ℝ) (r alpha_min alpha_max : ℝ)
    (n_alpha n_theta : ℕ) : Matrix :=
  ⟨n_alpha + 1, n_theta + 1, fun i j =>
    c.getD 1 0 + r * Real.sin (linStep (deg2rad alpha_min) (deg2rad alpha_max) n_alpha i)
      * Real.sin ((j : ℝ) * (Real.pi / 2 / (n_theta : ℝ)))⟩

/-- The z matrix built by Surface::draw_hemisphere:
z[i][j] = c[2] - r * cos(theta_j) when cup, and c[2] + r * cos(theta_j)
otherwise. -/
noncomputable def hemisphereZ (c : List ℝ) (r : ℝ) (n_alpha n_theta : ℕ)
    (cup : Bool) : Matrix :=
  ⟨n_alpha + 1, n_theta + 1, fun _ j =>
    if cup then c.getD 2 0 - r * Real.cos ((j : ℝ) * (Real.pi / 2 / (n_theta : ℝ)))
    else c.getD 2 0 + r * Real.cos ((j : ℝ) * (Real.pi / 2 / (n_theta : ℝ)))⟩

/-- Surface::draw_hemisphere (surface_geometry.rs lines 65-105).  The azimuth
runs over the caller's [alpha_min, alpha_max] (degrees), the polar angle is
hard-coded to [0, PI/2] in n_theta+1 samples. -/
noncomputable def draw_hemisphere (c : List ℝ) (r alpha_min alpha_max : ℝ)
    (n_alpha n_theta : ℕ) (cup : Bool) : Except String (Matrix × Matrix × Matrix) :=
  if c.length ≠ 3 then
    .error "c.len() must be equal to 3"
  else if n_alpha < 1 ∨ n_theta < 1 then
    .error "n_alpha and n_theta must be greater than or equal to 1"
  else
    .ok (hemisphereX c r alpha_min alpha_max n_alpha n_theta,
         hemisphereY c r alpha_min alpha_max n_alpha n_theta,
         hemisphereZ c r n_alpha n_theta cup)

/-- The x matrix built by Surface::draw_superquadric:
x[i][j] = c[0] + r[0] * suq_cos(theta_j, A) * suq_cos(alpha_i, A) with
A = 2 / k[0], theta_j = t_min + j * d_theta and alpha_i = a_min + i * d_alpha. -/
noncomputable def superquadricX (c r k : List ℝ)
    (alpha_min alpha_max theta_min theta_max : ℝ) (n_alpha n_theta : ℕ) : Matrix :=
  ⟨n_alpha + 1, n_theta + 1, fun i j =>
    c.getD 0 0 + r.getD 0 0
      * suq_cos (linStep (deg2rad theta_min) (deg2rad theta_max) n_theta j) (2 / k.getD 0 0)
      * suq_cos (linStep (deg2rad alpha_min) (deg2rad alpha_max) n_alpha i) (2 / k.getD 0 0)⟩

/-- The y matrix built by Surface::draw_superquadric:
y[i][j] = c[1] + r[1] * suq_cos(theta_j, B) * suq_sin(alpha_i, B), B = 2 / k[1]. -/
noncomputable def superquadricY (c r k : List ℝ)
    (alpha_min alpha_max theta_min theta_max : ℝ) (n_alpha n_theta : ℕ) : Matrix :=
  ⟨n_alpha + 1, n_theta + 1, fun i j =>
    c.getD 1 0 + r.getD 1 0
      * suq_cos (linStep (deg2rad theta_min) (deg2rad theta_max) n_theta j) (2 / k.getD 1 0)
      * suq_sin (linStep (deg2rad alpha_min) (deg2rad alpha_max) n_alpha i) (2 / k.getD 1 0)⟩

/-- The z matrix built by Surface::draw_superquadric:
z[i][j] = c[2] + r[2] * suq_sin(theta_j, C), C = 2 / k[2]. -/
noncomputable def superquadricZ (c r k : List ℝ)
    (theta_min theta_max : ℝ) (n_alpha n_theta : ℕ) : Matrix :=
  ⟨n_alpha + 1, n_theta + 1, fun _ j =>
    c.getD 2 0 + r.getD 2 0
      * suq_sin (linStep (deg2rad theta_min) (deg2rad theta_max) n_theta j) (2 / k.getD 2 0)⟩

/-- Surface::draw_superquadric (surface_geometry.rs lines 126-168). -/
noncomputable def draw_superquadric (c r k : List ℝ)
    (alpha_min alpha_max theta_min theta_max : ℝ)
    (n_alpha n_theta : ℕ) : Except String (Matrix × Matrix × Matrix) :=
  if c.length ≠ 3 ∨ r.length ≠ 3 ∨ k.length ≠ 3 then
    .error "c.len(), r.len(), and k.len() must be equal to 3"
  else if n_alpha < 1 ∨ n_theta < 1 then
    .error "n_alpha and n_theta must be greater than or equal to 1"
  else if k.getD 0 0 < 0 ∨ k.getD 1 0 < 0 ∨ k.getD 2 0 < 0 then
    .error "exponents k must be greater than zero"
  else
    .ok (superquadricX c r k alpha_min alpha_max theta_min theta_max n_alpha n_theta,
         superquadricY c r k alpha_min alpha_max theta_min theta_max n_alpha n_theta,
         superquadricZ c r k theta_min theta_max n_alpha n_theta)

/-- Surface::draw_sphere (surface_geometry.rs lines 182-208): validates c and
the subdivision counts itself, then delegates to draw_superquadric with
r = [r, r, r], k = [2, 2, 2], alpha in [-180, 180] and theta in [-90, 90]. -/
noncomputable def draw_sphere (c : List ℝ) (r : ℝ) (n_alpha n_theta : ℕ) :
    Except String (Matrix × Matrix × Matrix) :=
  if c.length ≠ 3 then
    .error "c.len() must be equal to 3"
  else if n_alpha < 1 ∨ n_theta < 1 then
    .error "n_alpha and n_theta must be greater than or equal to 1"
  else
    draw_superquadric c [r, r, r] [2, 2, 2] (-180) 180 (-90) 90 n_alpha n_theta

/-- Idealized IEEE-754 double (Rust f64): finite values are exact rationals
(no rounding, overflow or underflow), plus a negative zero, the two infinities
and NaN.  `fin 0` is the positive zero.  Used to model the validation
prologues of the generators, whose outcome is decided by Rust f64 comparison
semantics on special values. -/
inductive F64 where
  | fin : ℚ → F64
  | negZero : F64
  | posInf : F64
  | negInf : F64
  | nan : F64
deriving DecidableEq

/-- Numeric value of a finite F64 (the negative zero is the number 0); junk
value 0 for the non-finite constructors, which the comparison below never
reaches on its numeric branch. -/
def F64.ratVal : F64 → ℚ
  | fin q => q
  | _ => 0

/-- IEEE-754 less-than on doubles: every comparison involving NaN is false,
negative infinity is below everything else, positive infinity above, and
finite values (including the two zeros, which are equal) compare as numbers. -/
def F64.lt : F64 → F64 → Bool
  | nan, _ => false
  | _, nan => false
  | negInf, negInf => false
  | negInf, _ => true
  | _, negInf => false
  | posInf, _ => false
  | _, posInf => true
  | a, b => decide (a.ratVal < b.ratVal)

/-- IEEE-754 absolute value on doubles: |NaN| = NaN, both infinities map to
positive infinity, |-0.0| = 0.0 . -/
def F64.abs : F64 → F64
  | fin q => fin |q|
  | negZero => fin 0
  | posInf => posInf
  | negInf => posInf
  | nan => nan

/-- Is this F64 a zero, i.e. does it compare equal to 0.0 under IEEE equality
(true for both the positive and the negative zero)? -/
def F64.isZero : F64 → Bool
  | fin q => decide (q = 0)
  | negZero => true
  | _ => false

/-- IEEE-754 division on (idealized) doubles: NaN propagates, an infinity
divided by an infinity is NaN, a nonzero finite value divided by a zero is a
signed infinity, a zero divided by a zero is NaN, and finite quotients are
exact, with the IEEE sign rule for zero results. -/
def F64.div : F64 → F64 → F64
  | nan, _ => nan
  | _, nan => nan
  | posInf, posInf => nan
  | posInf, negInf => nan
  | negInf, posInf => nan
  | negInf, negInf => nan
  | posInf, negZero => negInf
  | posInf, fin b => if 0 ≤ b then posInf else negInf
  | negInf, negZero => posInf
  | negInf, fin b => if 0 ≤ b then negInf else posInf
  | negZero, posInf => negZero
  | negZero, negInf => fin 0
  | fin a, posInf => if 0 ≤ a then fin 0 else negZero
  | fin a, negInf => if 0 ≤ a then negZero else fin 0
  | negZero, negZero => nan
  | negZero, fin b => if b = 0 then nan else if 0 < b then negZero else fin 0
  | fin a, negZero => if a = 0 then nan else if 0 < a then negInf else posInf
  | fin a, fin b =>
      if b = 0 then (if a = 0 then nan else if 0 < a then posInf else negInf)
      else if a = 0 ∧ b < 0 then negZero
      else fin (a / b)

/-- IEEE-754 power (Rust f64::powf) for a nonnegative finite base and an
infinite exponent, the combination produced by a zero superquadric exponent
component (the base is an absolute cosine or sine): pow(b, +inf) is 0 for
0 <= b < 1, 1 for b = 1 and +inf for b > 1; pow(b, -inf) is +inf for
0 <= b < 1, 1 for b = 1 and 0 for b > 1.  A non-infinite exponent is outside
the modelled domain and maps to NaN junk. -/
def F64.powInf (b : ℚ) (e : F64) : F64 :=
  if b = 1 then fin 1
  else match e with
    | posInf => if b < 1 then fin 0 else posInf
    | negInf => if b < 1 then posInf else fin 0
    | _ => nan

/-- F64-level model of the validation prologue of Surface::draw_plane_nzz
(surface_geometry.rs lines 33-41), the only place the function can return Err:
after these checks the Rust code unconditionally returns Ok, so the call
errors iff this returns some message. -/
def planeErrF64 (p n : List F64) (nx ny : ℕ) : Option String :=
  if p.length ≠ 3 ∨ n.length ≠ 3 then
    some "p.len() and n.len() must be equal to 3"
  else if F64.lt (F64.abs (n.getD 2 (.fin 0))) (.fin (1 / 10 ^ 10)) then
    some "the z-component of the normal vector cannot be zero"
  else if nx < 1 ∨ ny < 1 then
    some "nx and ny must be greater than or equal to 2"
  else none

/-- F64-level model of the validation prologue of Surface::draw_hemisphere
(surface_geometry.rs lines 75-80); the radius and the angular bounds are never
inspected by it.  After these checks the Rust code unconditionally returns Ok. -/
def hemisphereErrF64 (c : List F64) (_r : F64) (n_alpha n_theta : ℕ) : Option String :=
  if c.length ≠ 3 then
    some "c.len() must be equal to 3"
  else if n_alpha < 1 ∨ n_theta < 1 then
    some "n_alpha and n_theta must be greater than or equal to 1"
  else none

/-- F64-level model of the validation prologue of Surface::draw_superquadric
(surface_geometry.rs lines 138-146), the only place the function can return
Err: after these checks the Rust code unconditionally returns Ok. -/
def superquadricErrF64 (c r k : List F64) (n_alpha n_theta : ℕ) : Option String :=
  if c.length ≠ 3 ∨ r.length ≠ 3 ∨ k.length ≠ 3 then
    some "c.len(), r.len(), and k.len() must be equal to 3"
  else if n_alpha < 1 ∨ n_theta < 1 then
    some "n_alpha and n_theta must be greater than or equal to 1"
  else if F64.lt (k.getD 0 (.fin 0)) (.fin 0) ∨ F64.lt (k.getD 1 (.fin 0)) (.fin 0)
      ∨ F64.lt (k.getD 2 (.fin 0)) (.fin 0) then
    some "exponents k must be greater than zero"
  else none

/-- F64-level model of the error behaviour of Surface::draw_sphere
(surface_geometry.rs lines 182-208): its own two checks, then delegation to
draw_superquadric. -/
def sphereErrF64 (c : List F64) (r : F64) (n_alpha n_theta : ℕ) : Option String :=
  if c.length ≠ 3 then
    some "c.len() must be equal to 3"
  else if n_alpha < 1 ∨ n_theta < 1 then
    some "n_alpha and n_theta must be greater than or equal to 1"
  else
    superquadricErrF64 c [r, r, r] [.fin 2, .fin 2, .fin 2] n_alpha n_theta

theorem sign_mul_abs_self (x : ℝ) : Real.sign x * |x| = x := by
  rcases lt_trichotomy x 0 with h | h | h
  · rw [Real.sign_of_neg h, abs_of_neg h]; ring
  · simp [h]
  · rw [Real.sign_of_pos h, abs_of_pos h]; ring

theorem suq_cos_one (t : ℝ) : suq_cos t 1 = Real.cos t := by
  rw [suq_cos, Real.rpow_one, sign_mul_abs_self]

theorem suq_sin_one (t : ℝ) : suq_sin t 1 = Real.sin t := by
  rw [suq_sin, Real.rpow_one, sign_mul_abs_self]

theorem draw_plane_nzz_eq_ok (p n : List ℝ) (xmin xmax ymin ymax : ℝ) (nx ny : ℕ)
    (hp : p.length = 3) (hn : n.length = 3) (hz : ¬|n.getD 2 0| < 1 / 10 ^ 10)
    (h1 : 1 ≤ nx) (h2 : 1 ≤ ny) :
    draw_plane_nzz p n xmin xmax ymin ymax nx ny =
      .ok (generate3d xmin xmax ymin ymax (nx + 1) (ny + 1) (fun x y =>
        (-(-n.getD 0 0 * p.getD 0 0 - n.getD 1 0 * p.getD 1 0 - n.getD 2 0 * p.getD 2 0)
          - n.getD 0 0 * x - n.getD 1 0 * y) / n.getD 2 0)) := by
  unfold draw_plane_nzz
  rw [if_neg (by simp [hp, hn]), if_neg hz, if_neg (by omega)]

theorem draw_hemisphere_eq_ok (c : List ℝ) (r alpha_min alpha_max : ℝ)
    (n_alpha n_theta : ℕ) (cup : Bool)
    (hc : c.length = 3) (h1 : 1 ≤ n_alpha) (h2 : 1 ≤ n_theta) :
    draw_hemisphere c r alpha_min alpha_max n_alpha n_theta cup =
      .ok (hemisphereX c r alpha_min alpha_max n_alpha n_theta,
           hemisphereY c r alpha_min alpha_max n_alpha n_theta,
           hemisphereZ c r n_alpha n_theta cup) := by
  unfold draw_hemisphere
  rw [if_neg (by simp [hc]), if_neg (by omega)]

theorem draw_superquadric_eq_ok (c r k : List ℝ)
    (alpha_min alpha_max theta_min theta_max : ℝ) (n_alpha n_theta : ℕ)
    (hc : c.length = 3) (hr : r.length = 3) (hk : k.length = 3)
    (h1 : 1 ≤ n_alpha) (h2 : 1 ≤ n_theta)
    (hk0 : 0 ≤ k.getD 0 0) (hk1 : 0 ≤ k.getD 1 0) (hk2 : 0 ≤ k.getD 2 0) :
    draw_superquadric c r k alpha_min alpha_max theta_min theta_max n_alpha n_theta =
      .ok (superquadricX c r k alpha_min alpha_max theta_min theta_max n_alpha n_theta,
           superquadricY c r k alpha_min alpha_max theta_min theta_max n_alpha n_theta,
           superquadricZ c r k theta_min theta_max n_alpha n_theta) := by
  unfold draw_superquadric
  rw [if_neg (by simp [hc, hr, hk]), if_neg (by omega),
    if_neg (by push_neg; exact ⟨hk0, hk1, hk2⟩)]

theorem draw_sphere_eq_ok (c : List ℝ) (r : ℝ) (n_alpha n_theta : ℕ)
    (hc : c.length = 3) (h1 : 1 ≤ n_alpha) (h2 : 1 ≤ n_theta) :
    draw_sphere c r n_alpha n_theta =
      .ok (superquadricX c [r, r, r] [2, 2, 2] (-180) 180 (-90) 90 n_alpha n_theta,
           superquadricY c [r, r, r] [2, 2, 2] (-180) 180 (-90) 90 n_alpha n_theta,
           superquadricZ c [r, r, r] [2, 2, 2] (-90) 90 n_alpha n_theta) := by
  unfold draw_sphere
  rw [if_neg (by simp [hc]), if_neg (by omega)]
  exact draw_superquadric_eq_ok _ _ _ _ _ _ _ _ _ hc (by simp) (by simp) h1 h2
    (by norm_num) (by norm_num) (by norm_num)

theorem draw_plane_nzz_ok_iff (p n : List ℝ) (xmin xmax ymin ymax : ℝ) (nx ny : ℕ) :
    (∃ m, draw_plane_nzz p n xmin xmax ymin ymax nx ny = .ok m) ↔
      (p.length = 3 ∧ n.length = 3 ∧ ¬|n.getD 2 0| < 1 / 10 ^ 10 ∧ 1 ≤ nx ∧ 1 ≤ ny) := by
  unfold draw_plane_nzz
  split_ifs with h1 h2 h3
  · refine ⟨fun ⟨m, hm⟩ => hm.elim, fun ⟨hp, hn, _, _, _⟩ => ?_⟩
    rcases h1 with h | h
    · exact absurd hp h
    · exact absurd hn h
  · exact ⟨fun ⟨m, hm⟩ => hm.elim, fun ⟨_, _, hz, _, _⟩ => absurd h2 hz⟩
  · exact ⟨fun ⟨m, hm⟩ => hm.elim, fun ⟨_, _, _, ha, hb⟩ => by omega⟩
  · simp only [not_or] at h1 h3
    exact ⟨fun _ => ⟨by omega, by omega, h2, by omega, by omega⟩, fun _ => ⟨_, rfl⟩⟩

theorem draw_hemisphere_ok_iff (c : List ℝ) (r alpha_min alpha_max : ℝ)
    (n_alpha n_theta : ℕ) (cup : Bool) :
    (∃ m, draw_hemisphere c r alpha_min alpha_max n_alpha n_theta cup = .ok m) ↔
      (c.length = 3 ∧ 1 ≤ n_alpha ∧ 1 ≤ n_theta) := by
  unfold draw_hemisphere
  split_ifs with h1 h2
  · exact ⟨fun ⟨m, hm⟩ => hm.elim, fun ⟨hc, _, _⟩ => absurd hc h1⟩
  · exact ⟨fun ⟨m, hm⟩ => hm.elim, fun ⟨_, ha, hb⟩ => by omega⟩
  · exact ⟨fun _ => ⟨by omega, by omega, by omega⟩, fun _ => ⟨_, rfl⟩⟩

theorem draw_superquadric_ok_iff (c r k : List ℝ)
    (alpha_min alpha_max theta_min theta_max : ℝ) (n_alpha n_theta : ℕ) :
    (∃ m, draw_superquadric c r k alpha_min alpha_max theta_min theta_max n_alpha n_theta = .ok m) ↔
      (c.length = 3 ∧ r.length = 3 ∧ k.length = 3 ∧ 1 ≤ n_alpha ∧ 1 ≤ n_theta ∧
        0 ≤ k.getD 0 0 ∧ 0 ≤ k.getD 1 0 ∧ 0 ≤ k.getD 2 0) := by
  unfold draw_superquadric
  split_ifs with h1 h2 h3
  · refine ⟨fun ⟨m, hm⟩ => hm.elim, fun ⟨hc, hr, hk, _⟩ => ?_⟩
    rcases h1 with h | h | h
    · exact absurd hc h
    · exact absurd hr h
    · exact absurd hk h
  · exact ⟨fun ⟨m, hm⟩ => hm.elim, fun ⟨_, _, _, ha, hb, _⟩ => by omega⟩
  · refine ⟨fun ⟨m, hm⟩ => hm.elim, fun ⟨_, _, _, _, _, k0, k1, k2⟩ => ?_⟩
    rcases h3 with h | h | h
    · exact absurd h (not_lt.mpr k0)
    · exact absurd h (not_lt.mpr k1)
    · exact absurd h (not_lt.mpr k2)
  · simp only [not_or, not_lt] at h1 h3
    refine ⟨fun _ => ⟨by omega, by omega, by omega, by omega, by omega, ?_, ?_, ?_⟩,
      fun _ => ⟨_, rfl⟩⟩
    · exact h3.1
    · exact h3.2.1
    · exact h3.2.2

theorem draw_sphere_ok_iff (c : List ℝ) (r : ℝ) (n_alpha n_theta : ℕ) :
    (∃ m, draw_sphere c r n_alpha n_theta = .ok m) ↔
      (c.length = 3 ∧ 1 ≤ n_alpha ∧ 1 ≤ n_theta) := by
  unfold draw_sphere
  split_ifs with h1 h2
  · exact ⟨fun ⟨m, hm⟩ => hm.elim, fun ⟨hc, _, _⟩ => absurd hc h1⟩
  · exact ⟨fun ⟨m, hm⟩ => hm.elim, fun ⟨_, ha, hb⟩ => by omega⟩
  · rw [draw_superquadric_ok_iff]
    constructor
    · rintro ⟨hc, -, -, -⟩
      exact ⟨hc, by omega, by omega⟩
    · rintro ⟨hc, ha, hb⟩
      refine ⟨hc, by simp, by simp, ha, hb, ?_, ?_, ?_⟩ <;> norm_num

/-- C1: for every valid call to draw_superquadric, each grid point (i, j)
satisfies x[i][j] = c.x + r.x * scos(theta_j, A) * scos(alpha_j, A),
y[i][j] = c.y + r.y * scos(theta_j, B) * ssin(alpha_i, B) and
z[i][j] = c.z + r.z * ssin(theta_j, C), where alpha_i = a_min + i * d_alpha and
theta_j = t_min + j * d_theta are built from the degree inputs converted to
radians and divided into n_alpha and n_theta steps, A = 2/k.x, B = 2/k.y,
C = 2/k.z, and scos, ssin are the signed powers suq_cos, suq_sin. -/
theorem superquadric_grid_formula (c r k : List ℝ)
    (alpha_min alpha_max theta_min theta_max : ℝ) (n_alpha n_theta : ℕ)
    (hc : c.length = 3) (hr : r.length = 3) (hk : k.length = 3)
    (h1 : 1 ≤ n_alpha) (h2 : 1 ≤ n_theta)
    (hk0 : 0 ≤ k.getD 0 0) (hk1 : 0 ≤ k.getD 1 0) (hk2 : 0 ≤ k.getD 2 0) :
    ∃ x y z, draw_superquadric c r k alpha_min alpha_max theta_min theta_max n_alpha n_theta
        = .ok (x, y, z) ∧
      ∀ i j, i ≤ n_alpha → j ≤ n_theta →
        x.entry i j = c.getD 0 0 + r.getD 0 0
            * suq_cos (theta_min * Real.pi / 180 + (j : ℝ)
                * ((theta_max * Real.pi / 180 - theta_min * Real.pi / 180) / (n_theta : ℝ)))
              (2 / k.getD 0 0)
            * suq_cos (alpha_min * Real.pi / 180 + (i : ℝ)
                * ((alpha_max * Real.pi / 180 - alpha_min * Real.pi / 180) / (n_alpha : ℝ)))
              (2 / k.getD 0 0) ∧
        y.entry i j = c.getD 1 0 + r.getD 1 0
            * suq_cos (theta_min * Real.pi / 180 + (j : ℝ)
                * ((theta_max * Real.pi / 180 - theta_min * Real.pi / 180) / (n_theta : ℝ)))
              (2 / k.getD 1 0)
            * suq_sin (alpha_min * Real.pi / 180 + (i : ℝ)
                * ((alpha_max * Real.pi / 180 - alpha_min * Real.pi / 180) / (n_alpha : ℝ)))
              (2 / k.getD 1 0) ∧
        z.entry i j = c.getD 2 0 + r.getD 2 0
            * suq_sin (theta_min * Real.pi / 180 + (j : ℝ)
                * ((theta_max * Real.pi / 180 - theta_min * Real.pi / 180) / (n_theta : ℝ)))
              (2 / k.getD 2 0) := by
  refine ⟨_, _, _,
    draw_superquadric_eq_ok c r k alpha_min alpha_max theta_min theta_max n_alpha n_theta
      hc hr hk h1 h2 hk0 hk1 hk2, fun i j _ _ => ⟨rfl, rfl, rfl⟩⟩

theorem superquadric_grid_formula_witness :
    ∃ x y z, draw_superquadric [0, 0, 0] [1, 1, 1] [2, 2, 2] (-180) 180 (-90) 90 2 2
        = .ok (x, y, z) := by
  obtain ⟨x, y, z, h, -⟩ := superquadric_grid_formula [0, 0, 0] [1, 1, 1] [2, 2, 2]
    (-180) 180 (-90) 90 2 2 rfl rfl rfl (by norm_num) (by norm_num)
    (by norm_num) (by norm_num) (by norm_num)
  exact ⟨x, y, z, h⟩

/-- C3: for every generator call with valid inputs and subdivision counts
(n1, n2), all three returned grids have n1+1 rows and n2+1 columns. -/
theorem generators_grid_shape :
    (∀ (p n : List ℝ) (xmin xmax ymin ymax : ℝ) (nx ny : ℕ),
      p.length = 3 → n.length = 3 → ¬|n.getD 2 0| < 1 / 10 ^ 10 → 1 ≤ nx → 1 ≤ ny →
      ∃ x y z, draw_plane_nzz p n xmin xmax ymin ymax nx ny = .ok (x, y, z) ∧
        x.nrow = nx + 1 ∧ x.ncol = ny + 1 ∧ y.nrow = nx + 1 ∧ y.ncol = ny + 1 ∧
        z.nrow = nx + 1 ∧ z.ncol = ny + 1) ∧
    (∀ (c : List ℝ) (r alpha_min alpha_max : ℝ) (n_alpha n_theta : ℕ) (cup : Bool),
      c.length = 3 → 1 ≤ n_alpha → 1 ≤ n_theta →
      ∃ x y z, draw_hemisphere c r alpha_min alpha_max n_alpha n_theta cup = .ok (x, y, z) ∧
        x.nrow = n_alpha + 1 ∧ x.ncol = n_theta + 1 ∧ y.nrow = n_alpha + 1 ∧
        y.ncol = n_theta + 1 ∧ z.nrow = n_alpha + 1 ∧ z.ncol = n_theta + 1) ∧
    (∀ (c r k : List ℝ) (alpha_min alpha_max theta_min theta_max : ℝ) (n_alpha n_theta : ℕ),
      c.length = 3 → r.length = 3 → k.length = 3 → 1 ≤ n_alpha → 1 ≤ n_theta →
      0 ≤ k.getD 0 0 → 0 ≤ k.getD 1 0 → 0 ≤ k.getD 2 0 →
      ∃ x y z, draw_superquadric c r k alpha_min alpha_max theta_min theta_max n_alpha n_theta
          = .ok (x, y, z) ∧
        x.nrow = n_alpha + 1 ∧ x.ncol = n_theta + 1 ∧ y.nrow = n_alpha + 1 ∧
        y.ncol = n_theta + 1 ∧ z.nrow = n_alpha + 1 ∧ z.ncol = n_theta + 1) ∧
    (∀ (c : List ℝ) (r : ℝ) (n_alpha n_theta : ℕ),
      c.length = 3 → 1 ≤ n_alpha → 1 ≤ n_theta →
      ∃ x y z, draw_sphere c r n_alpha n_theta = .ok (x, y, z) ∧
        x.nrow = n_alpha + 1 ∧ x.ncol = n_theta + 1 ∧ y.nrow = n_alpha + 1 ∧
        y.ncol = n_theta + 1 ∧ z.nrow = n_alpha + 1 ∧ z.ncol = n_theta + 1) := by
  refine ⟨fun p n xmin xmax ymin ymax nx ny hp hn hz h1 h2 => ?_,
    fun c r am ax na nt cup hc h1 h2 => ?_,
    fun c r k am ax tm tx na nt hc hr hk h1 h2 k0 k1 k2 => ?_,
    fun c r na nt hc h1 h2 => ?_⟩
  · exact ⟨_, _, _, draw_plane_nzz_eq_ok p n xmin xmax ymin ymax nx ny hp hn hz h1 h2,
      rfl, rfl, rfl, rfl, rfl, rfl⟩
  · exact ⟨_, _, _, draw_hemisphere_eq_ok c r am ax na nt cup hc h1 h2,
      rfl, rfl, rfl, rfl, rfl, rfl⟩
  · exact ⟨_, _, _, draw_superquadric_eq_ok c r k am ax tm tx na nt hc hr hk h1 h2 k0 k1 k2,
      rfl, rfl, rfl, rfl, rfl, rfl⟩
  · exact ⟨_, _, _, draw_sphere_eq_ok c r na nt hc h1 h2, rfl, rfl, rfl, rfl, rfl, rfl⟩

theorem generators_grid_shape_witness :
    (∃ x y z, draw_plane_nzz [0, 0, 0] [0, 0, 1] (-1) 1 (-1) 1 1 1 = .ok (x, y, z) ∧
      x.nrow = 2 ∧ x.ncol = 2 ∧ y.nrow = 2 ∧ y.ncol = 2 ∧ z.nrow = 2 ∧ z.ncol = 2) ∧
    (∃ x y z, draw_hemisphere [0, 0, 0] 1 (-180) 180 3 2 false = .ok (x, y, z) ∧
      x.nrow = 4 ∧ x.ncol = 3 ∧ y.nrow = 4 ∧ y.ncol = 3 ∧ z.nrow = 4 ∧ z.ncol = 3) ∧
    (∃ x y z, draw_superquadric [0, 0, 0] [1, 1, 1] [2, 2, 2] (-180) 180 (-90) 90 3 2
        = .ok (x, y, z) ∧
      x.nrow = 4 ∧ x.ncol = 3 ∧ y.nrow = 4 ∧ y.ncol = 3 ∧ z.nrow = 4 ∧ z.ncol = 3) ∧
    (∃ x y z, draw_sphere [0, 0, 0] 1 4 2 = .ok (x, y, z) ∧
      x.nrow = 5 ∧ x.ncol = 3 ∧ y.nrow = 5 ∧ y.ncol = 3 ∧ z.nrow = 5 ∧ z.ncol = 3) :=
  ⟨generators_grid_shape.1 [0, 0, 0] [0, 0, 1] (-1) 1 (-1) 1 1 1 rfl rfl
      (by norm_num) (by norm_num) (by norm_num),
    generators_grid_shape.2.1 [0, 0, 0] 1 (-180) 180 3 2 false rfl (by norm_num) (by norm_num),
    generators_grid_shape.2.2.1 [0, 0, 0] [1, 1, 1] [2, 2, 2] (-180) 180 (-90) 90 3 2
      rfl rfl rfl (by norm_num) (by norm_num) (by norm_num) (by norm_num) (by norm_num),
    generators_grid_shape.2.2.2 [0, 0, 0] 1 4 2 rfl (by norm_num) (by norm_num)⟩

/-- C6 counterexample: with c = [] the two calls both fail, but draw_sphere
returns its own error message while the corresponding draw_superquadric call
returns a different one, so draw_sphere does not return exactly what that
draw_superquadric call returns and the error is not propagated unchanged. -/
theorem sphere_error_message_differs_cex :
    draw_sphere ([] : List ℝ) 1 1 1 ≠
      draw_superquadric ([] : List ℝ) [1, 1, 1] [2, 2, 2] (-180) 180 (-90) 90 1 1 := by
  unfold draw_sphere draw_superquadric
  rw [if_pos (by simp), if_pos (by simp)]
  simp only [ne_eq, Except.error.injEq]
  decide

/-- C6 (amended): draw_sphere delegates to draw_superquadric with r = [r,r,r],
k = [2,2,2], alpha in [-180, 180] and theta in [-90, 90]: whenever c has
length 3 the two calls return exactly the same result (same mesh, and the same
error when a subdivision count is 0), and in general draw_sphere succeeds
exactly when that draw_superquadric call would; but when c.length is not 3,
draw_sphere reports its own error message instead of the propagated one. -/
theorem sphere_delegates_to_superquadric (c : List ℝ) (r : ℝ) (n_alpha n_theta : ℕ) :
    (c.length = 3 →
      draw_sphere c r n_alpha n_theta =
        draw_superquadric c [r, r, r] [2, 2, 2] (-180) 180 (-90) 90 n_alpha n_theta) ∧
    ((∃ m, draw_sphere c r n_alpha n_theta = .ok m) ↔
      (∃ m, draw_superquadric c [r, r, r] [2, 2, 2] (-180) 180 (-90) 90 n_alpha n_theta
          = .ok m)) := by
  constructor
  · intro hc
    unfold draw_sphere
    rw [if_neg (by simp [hc])]
    by_cases hcnt : n_alpha < 1 ∨ n_theta < 1
    · rw [if_pos hcnt]
      unfold draw_superquadric
      rw [if_neg (by simp [hc]), if_pos hcnt]
    · rw [if_neg hcnt]
  · rw [draw_sphere_ok_iff, draw_superquadric_ok_iff]
    constructor
    · rintro ⟨hc, h1, h2⟩
      exact ⟨hc, by simp, by simp, h1, h2, by norm_num, by norm_num, by norm_num⟩
    · rintro ⟨hc, -, -, h1, h2, -⟩
      exact ⟨hc, h1, h2⟩

theorem sphere_delegates_to_superquadric_witness :
    draw_sphere [0, 0, 0] 1 4 2 =
      draw_superquadric [0, 0, 0] [1, 1, 1] [2, 2, 2] (-180) 180 (-90) 90 4 2 :=
  (sphere_delegates_to_superquadric [0, 0, 0] 1 4 2).1 rfl

/-- C8: each generator returns an error exactly when its validation conditions
fail, and no mesh is produced on error (the result is Err): the plane needs
3-vectors, |n.z| at least 1e-10 and both counts at least 1; the hemisphere
needs a 3-vector and both counts at least 1; the superquadric needs three
3-vectors, both counts at least 1 and nonnegative exponents; the sphere
(via delegation) needs a 3-vector and both counts at least 1. -/
theorem validation_iff_ok :
    (∀ (p n : List ℝ) (xmin xmax ymin ymax : ℝ) (nx ny : ℕ),
      (∃ m, draw_plane_nzz p n xmin xmax ymin ymax nx ny = .ok m) ↔
        (p.length = 3 ∧ n.length = 3 ∧ ¬|n.getD 2 0| < 1 / 10 ^ 10 ∧ 1 ≤ nx ∧ 1 ≤ ny)) ∧
    (∀ (c : List ℝ) (r alpha_min alpha_max : ℝ) (n_alpha n_theta : ℕ) (cup : Bool),
      (∃ m, draw_hemisphere c r alpha_min alpha_max n_alpha n_theta cup = .ok m) ↔
        (c.length = 3 ∧ 1 ≤ n_alpha ∧ 1 ≤ n_theta)) ∧
    (∀ (c r k : List ℝ) (alpha_min alpha_max theta_min theta_max : ℝ) (n_alpha n_theta : ℕ),
      (∃ m, draw_superquadric c r k alpha_min alpha_max theta_min theta_max n_alpha n_theta
          = .ok m) ↔
        (c.length = 3 ∧ r.length = 3 ∧ k.length = 3 ∧ 1 ≤ n_alpha ∧ 1 ≤ n_theta ∧
          0 ≤ k.getD 0 0 ∧ 0 ≤ k.getD 1 0 ∧ 0 ≤ k.getD 2 0)) ∧
    (∀ (c : List ℝ) (r : ℝ) (n_alpha n_theta : ℕ),
      (∃ m, draw_sphere c r n_alpha n_theta = .ok m) ↔
        (c.length = 3 ∧ 1 ≤ n_alpha ∧ 1 ≤ n_theta)) :=
  ⟨draw_plane_nzz_ok_iff, draw_hemisphere_ok_iff, draw_superquadric_ok_iff, draw_sphere_ok_iff⟩

/-- C2: every sampled point of the mesh returned by draw_sphere lies exactly on
the sphere of radius r around c (in the real-number idealization the squared
distance equals r^2 exactly, hence certainly within floating-point tolerance);
the grids have n_alpha+1 rows and n_theta+1 columns, so for n_alpha = 4 and
n_theta = 2 there are 15 sampled points. -/
theorem sphere_points_on_sphere (c : List ℝ) (r : ℝ) (n_alpha n_theta : ℕ)
    (hc : c.length = 3) (h1 : 1 ≤ n_alpha) (h2 : 1 ≤ n_theta) :
    ∃ x y z, draw_sphere c r n_alpha n_theta = .ok (x, y, z) ∧
      x.nrow = n_alpha + 1 ∧ x.ncol = n_theta + 1 ∧
      ∀ i j, i ≤ n_alpha → j ≤ n_theta →
        (x.entry i j - c.getD 0 0) ^ 2 + (y.entry i j - c.getD 1 0) ^ 2
          + (z.entry i j - c.getD 2 0) ^ 2 = r ^ 2 := by
  refine ⟨_, _, _, draw_sphere_eq_ok c r n_alpha n_theta hc h1 h2, rfl, rfl,
    fun i j _ _ => ?_⟩
  simp only [superquadricX, superquadricY, superquadricZ,
    List.getD_cons_zero, List.getD_cons_succ]
  norm_num
  simp only [suq_cos_one, suq_sin_one]
  linear_combination
    r ^ 2 * Real.cos (linStep (deg2rad (-90)) (deg2rad 90) n_theta j) ^ 2
        * Real.sin_sq_add_cos_sq (linStep (deg2rad (-180)) (deg2rad 180) n_alpha i)
      + r ^ 2 * Real.sin_sq_add_cos_sq (linStep (deg2rad (-90)) (deg2rad 90) n_theta j)

theorem sphere_points_on_sphere_witness :
    (4 + 1) * (2 + 1) = 15 ∧
    ∃ x y z, draw_sphere [0, 0, 0] 1 4 2 = .ok (x, y, z) ∧
      x.nrow = 4 + 1 ∧ x.ncol = 2 + 1 ∧
      ∀ i j, i ≤ 4 → j ≤ 2 →
        (x.entry i j - ([0, 0, 0] : List ℝ).getD 0 0) ^ 2
          + (y.entry i j - ([0, 0, 0] : List ℝ).getD 1 0) ^ 2
          + (z.entry i j - ([0, 0, 0] : List ℝ).getD 2 0) ^ 2 = 1 ^ 2 :=
  ⟨by norm_num, sphere_points_on_sphere [0, 0, 0] 1 4 2 rfl (by norm_num) (by norm_num)⟩

/-- C4: every sampled point of draw_plane_nzz satisfies the plane equation
n . (point - p) = 0 exactly; and the concrete call with p = [0,0,0],
n = [0,0,1], bounds [-1,1] x [-1,1] and nx = ny = 1 returns 2-by-2 grids whose
x and y samples are the corner coordinates -1 and 1 and whose z is uniformly
0 there. -/
theorem plane_points_satisfy_plane_equation :
    (∀ (p n : List ℝ) (xmin xmax ymin ymax : ℝ) (nx ny : ℕ),
      p.length = 3 → n.length = 3 → ¬|n.getD 2 0| < 1 / 10 ^ 10 → 1 ≤ nx → 1 ≤ ny →
      ∃ x y z, draw_plane_nzz p n xmin xmax ymin ymax nx ny = .ok (x, y, z) ∧
        ∀ i j, n.getD 0 0 * (x.entry i j - p.getD 0 0)
          + n.getD 1 0 * (y.entry i j - p.getD 1 0)
          + n.getD 2 0 * (z.entry i j - p.getD 2 0) = 0) ∧
    (∃ x y z, draw_plane_nzz [0, 0, 0] [0, 0, 1] (-1) 1 (-1) 1 1 1 = .ok (x, y, z) ∧
      x.nrow = 2 ∧ x.ncol = 2 ∧
      ∀ i j, i ≤ 1 → j ≤ 1 →
        x.entry i j = -1 + (i : ℝ) * 2 ∧ y.entry i j = -1 + (j : ℝ) * 2 ∧
        z.entry i j = 0) := by
  constructor
  · intro p n xmin xmax ymin ymax nx ny hp hn hz h1 h2
    have hn2 : n.getD 2 0 ≠ 0 := by
      intro h
      rw [h] at hz
      exact hz (by norm_num)
    refine ⟨_, _, _, draw_plane_nzz_eq_ok p n xmin xmax ymin ymax nx ny hp hn hz h1 h2,
      fun i j => ?_⟩
    simp only [generate3d]
    rw [mul_sub (n.getD 2 0), mul_div_cancel₀ _ hn2]
    ring
  · refine ⟨_, _, _,
      draw_plane_nzz_eq_ok [0, 0, 0] [0, 0, 1] (-1) 1 (-1) 1 1 1 rfl rfl
        (by norm_num) (by norm_num) (by norm_num),
      rfl, rfl, fun i j _ _ => ⟨?_, ?_, ?_⟩⟩
    · simp only [generate3d, linStep]
      norm_num
    · simp only [generate3d, linStep]
      norm_num
    · simp only [generate3d, linStep]
      norm_num

theorem plane_points_satisfy_plane_equation_witness :
    ∃ x y z, draw_plane_nzz [1, 2, 3] [1, 1, 1] (-1) 1 (-1) 1 2 2 = .ok (x, y, z) ∧
      ∀ i j, ([1, 1, 1] : List ℝ).getD 0 0 * (x.entry i j - ([1, 2, 3] : List ℝ).getD 0 0)
        + ([1, 1, 1] : List ℝ).getD 1 0 * (y.entry i j - ([1, 2, 3] : List ℝ).getD 1 0)
        + ([1, 1, 1] : List ℝ).getD 2 0 * (z.entry i j - ([1, 2, 3] : List ℝ).getD 2 0) = 0 :=
  plane_points_satisfy_plane_equation.1 [1, 2, 3] [1, 1, 1] (-1) 1 (-1) 1 2 2 rfl rfl
    (by norm_num) (by norm_num) (by norm_num)

/-- C5: for every valid call to draw_hemisphere, the polar angle grid is
theta_j = j * ((pi/2) / n_theta) for j = 0 .. n_theta, spanning [0, pi/2]
independently of the caller's angular inputs; the z entries are
c.z - r cos(theta_j) when cup is true and c.z + r cos(theta_j) when cup is
false; hence for r > 0 the dome (cup = false) stays at or above c.z and the
cup (cup = true) stays at or below c.z. -/
theorem hemisphere_theta_and_z (c : List ℝ) (r alpha_min alpha_max : ℝ)
    (n_alpha n_theta : ℕ) (cup : Bool)
    (hc : c.length = 3) (h1 : 1 ≤ n_alpha) (h2 : 1 ≤ n_theta) :
    ∃ x y z, draw_hemisphere c r alpha_min alpha_max n_alpha n_theta cup = .ok (x, y, z) ∧
      (∀ j : ℕ, j ≤ n_theta →
        0 ≤ (j : ℝ) * (Real.pi / 2 / (n_theta : ℝ)) ∧
        (j : ℝ) * (Real.pi / 2 / (n_theta : ℝ)) ≤ Real.pi / 2) ∧
      (n_theta : ℝ) * (Real.pi / 2 / (n_theta : ℝ)) = Real.pi / 2 ∧
      (∀ i j, z.entry i j =
        if cup then c.getD 2 0 - r * Real.cos ((j : ℝ) * (Real.pi / 2 / (n_theta : ℝ)))
        else c.getD 2 0 + r * Real.cos ((j : ℝ) * (Real.pi / 2 / (n_theta : ℝ)))) ∧
      (0 < r → ∀ i j, j ≤ n_theta →
        (cup = false → c.getD 2 0 ≤ z.entry i j) ∧
        (cup = true → z.entry i j ≤ c.getD 2 0)) := by
  have hnt : (n_theta : ℝ) ≠ 0 := Nat.cast_ne_zero.mpr (by omega)
  have hstep : 0 ≤ Real.pi / 2 / (n_theta : ℝ) := by positivity
  have hub : ∀ j : ℕ, j ≤ n_theta →
      (j : ℝ) * (Real.pi / 2 / (n_theta : ℝ)) ≤ Real.pi / 2 := by
    intro j hj
    calc (j : ℝ) * (Real.pi / 2 / (n_theta : ℝ))
        ≤ (n_theta : ℝ) * (Real.pi / 2 / (n_theta : ℝ)) :=
          mul_le_mul_of_nonneg_right (Nat.cast_le.mpr hj) hstep
      _ = Real.pi / 2 := by field_simp; ring
  have hcos : ∀ j : ℕ, j ≤ n_theta →
      0 ≤ Real.cos ((j : ℝ) * (Real.pi / 2 / (n_theta : ℝ))) := by
    intro j hj
    refine Real.cos_nonneg_of_mem_Icc ⟨?_, hub j hj⟩
    have : (0 : ℝ) ≤ (j : ℝ) * (Real.pi / 2 / (n_theta : ℝ)) := by positivity
    linarith [Real.pi_pos]
  refine ⟨_, _, _, draw_hemisphere_eq_ok c r alpha_min alpha_max n_alpha n_theta cup hc h1 h2,
    fun j hj => ⟨by positivity, hub j hj⟩, by field_simp; ring, fun i j => rfl,
    fun hr i j hj => ⟨fun hcup => ?_, fun hcup => ?_⟩⟩
  · subst hcup
    have := mul_nonneg hr.le (hcos j hj)
    simp only [hemisphereZ]
    simp only [Bool.false_eq_true, if_false]
    linarith
  · subst hcup
    have := mul_nonneg hr.le (hcos j hj)
    simp only [hemisphereZ, if_true]
    linarith

theorem hemisphere_theta_and_z_witness :
    ∃ x y z, draw_hemisphere [0, 0, 0] 1 (-180) 180 1 1 false = .ok (x, y, z) := by
  obtain ⟨x, y, z, h, -⟩ := hemisphere_theta_and_z [0, 0, 0] 1 (-180) 180 1 1 false rfl
    (by norm_num) (by norm_num)
  exact ⟨x, y, z, h⟩

/-- C7: the superquadric with k = [2,2,2] over theta in [0, 90] degrees, the
hemisphere (cup = false), and draw_sphere restricted to its upper half sample
the same grid of points: the hemisphere's (i, j) point equals the
superquadric's (i, n_theta - j) point (the hemisphere's polar angle is pi/2
minus the superquadric's latitude, so the theta samples correspond in reversed
order), and the superquadric's (i, j) point equals the (i, n_theta + j) point
of draw_sphere called with 2 * n_theta theta divisions (the upper half,
theta in [0, 90] degrees, of the sphere grid). -/
theorem hemisphere_superquadric_sphere_coincide (c : List ℝ) (r : ℝ)
    (n_alpha n_theta : ℕ) (hc : c.length = 3) (h1 : 1 ≤ n_alpha) (h2 : 1 ≤ n_theta) :
    (∀ alpha_min alpha_max : ℝ,
      ∃ xh yh zh xs ys zs,
        draw_hemisphere c r alpha_min alpha_max n_alpha n_theta false = .ok (xh, yh, zh) ∧
        draw_superquadric c [r, r, r] [2, 2, 2] alpha_min alpha_max 0 90 n_alpha n_theta
          = .ok (xs, ys, zs) ∧
        ∀ i j, i ≤ n_alpha → j ≤ n_theta →
          xh.entry i j = xs.entry i (n_theta - j) ∧
          yh.entry i j = ys.entry i (n_theta - j) ∧
          zh.entry i j = zs.entry i (n_theta - j)) ∧
    (∃ xs ys zs xb yb zb,
      draw_superquadric c [r, r, r] [2, 2, 2] (-180) 180 0 90 n_alpha n_theta
        = .ok (xs, ys, zs) ∧
      draw_sphere c r n_alpha (2 * n_theta) = .ok (xb, yb, zb) ∧
      ∀ i j, i ≤ n_alpha → j ≤ n_theta →
        xs.entry i j = xb.entry i (n_theta + j) ∧
        ys.entry i j = yb.entry i (n_theta + j) ∧
        zs.entry i j = zb.entry i (n_theta + j)) := by
  have hnt : (n_theta : ℝ) ≠ 0 := Nat.cast_ne_zero.mpr (by omega)
  have hB : ∀ j : ℕ, j ≤ n_theta →
      linStep (deg2rad 0) (deg2rad 90) n_theta (n_theta - j)
        = Real.pi / 2 - (j : ℝ) * (Real.pi / 2 / (n_theta : ℝ)) := by
    intro j hj
    simp only [linStep, deg2rad]
    rw [Nat.cast_sub hj]
    field_simp
    ring
  have hC : ∀ j : ℕ,
      linStep (deg2rad (-90)) (deg2rad 90) (2 * n_theta) (n_theta + j)
        = linStep (deg2rad 0) (deg2rad 90) n_theta j := by
    intro j
    simp only [linStep, deg2rad]
    push_cast
    field_simp
    ring
  constructor
  · intro alpha_min alpha_max
    refine ⟨_, _, _, _, _, _,
      draw_hemisphere_eq_ok c r alpha_min alpha_max n_alpha n_theta false hc h1 h2,
      draw_superquadric_eq_ok c [r, r, r] [2, 2, 2] alpha_min alpha_max 0 90 n_alpha n_theta
        hc (by simp) (by simp) h1 h2 (by norm_num) (by norm_num) (by norm_num),
      fun i j hi hj => ⟨?_, ?_, ?_⟩⟩
    · simp only [hemisphereX, superquadricX, List.getD_cons_zero, List.getD_cons_succ]
      norm_num
      simp only [suq_cos_one]
      rw [hB j hj, Real.cos_pi_div_two_sub]
      ring
    · simp only [hemisphereY, superquadricY, List.getD_cons_zero, List.getD_cons_succ]
      norm_num
      simp only [suq_cos_one, suq_sin_one]
      rw [hB j hj, Real.cos_pi_div_two_sub]
      ring
    · simp only [hemisphereZ, superquadricZ, List.getD_cons_zero, List.getD_cons_succ]
      norm_num
      simp only [suq_sin_one]
      rw [hB j hj, Real.sin_pi_div_two_sub]
      exact Or.inl rfl
  · refine ⟨_, _, _, _, _, _,
      draw_superquadric_eq_ok c [r, r, r] [2, 2, 2] (-180) 180 0 90 n_alpha n_theta
        hc (by simp) (by simp) h1 h2 (by norm_num) (by norm_num) (by norm_num),
      draw_sphere_eq_ok c r n_alpha (2 * n_theta) hc h1 (by omega),
      fun i j hi hj => ⟨?_, ?_, ?_⟩⟩
    · simp only [superquadricX]
      rw [hC j]
    · simp only [superquadricY]
      rw [hC j]
    · simp only [superquadricZ]
      rw [hC j]

theorem hemisphere_superquadric_sphere_coincide_witness :
    ∃ xh yh zh xs ys zs,
      draw_hemisphere [0, 0, 0] 1 (-180) 180 2 2 false = .ok (xh, yh, zh) ∧
      draw_superquadric [0, 0, 0] [1, 1, 1] [2, 2, 2] (-180) 180 0 90 2 2 = .ok (xs, ys, zs) ∧
      ∀ i j, i ≤ 2 → j ≤ 2 →
        xh.entry i j = xs.entry i (2 - j) ∧
        yh.entry i j = ys.entry i (2 - j) ∧
        zh.entry i j = zs.entry i (2 - j) :=
  (hemisphere_superquadric_sphere_coincide [0, 0, 0] 1 2 2 rfl
    (by norm_num) (by norm_num)).1 (-180) 180

/-- C9 counterexample: a NaN exponent component passes draw_superquadric's
validation (NaN < 0.0 is false in IEEE-754) with all other arguments valid, so
the call does not yield InvalidInput; likewise an infinite radius passes
draw_hemisphere's validation, which never inspects r. -/
theorem nonfinite_passes_validation_cex :
    superquadricErrF64 [F64.fin 0, F64.fin 0, F64.fin 0] [F64.fin 1, F64.fin 1, F64.fin 1]
        [F64.nan, F64.fin 2, F64.fin 2] 1 1 = none ∧
    hemisphereErrF64 [F64.fin 0, F64.fin 0, F64.fin 0] F64.posInf 1 1 = none := by
  decide

/-- C9 (amended): no generator checks finiteness of its scalar parameters: a
non-finite scalar that satisfies the length, subdivision-count and sign checks
passes validation and the call returns Ok rather than InvalidInput.  A NaN
exponent passes the k[i] < 0.0 test because IEEE-754 comparisons with NaN are
false; an infinite or NaN radius is never inspected by draw_hemisphere or
draw_sphere; a NaN z-normal passes draw_plane_nzz's |n.z| < 1e-10 test.  The
mesh computation then proceeds on the non-finite values. -/
theorem no_finiteness_check (c r : List F64) (n_alpha n_theta : ℕ)
    (hc : c.length = 3) (hr : r.length = 3) (h1 : 1 ≤ n_alpha) (h2 : 1 ≤ n_theta) :
    superquadricErrF64 c r [F64.nan, F64.fin 2, F64.fin 2] n_alpha n_theta = none ∧
    hemisphereErrF64 c F64.posInf n_alpha n_theta = none ∧
    sphereErrF64 c F64.nan n_alpha n_theta = none ∧
    planeErrF64 c [F64.fin 0, F64.fin 0, F64.nan] n_alpha n_theta = none := by
  refine ⟨?_, ?_, ?_, ?_⟩
  · unfold superquadricErrF64
    rw [if_neg (by simp [hc, hr]), if_neg (by omega), if_neg (by decide)]
  · unfold hemisphereErrF64
    rw [if_neg (by simp [hc]), if_neg (by omega)]
  · unfold sphereErrF64 superquadricErrF64
    rw [if_neg (by simp [hc]), if_neg (by omega), if_neg (by simp [hc]), if_neg (by omega),
      if_neg (by decide)]
  · unfold planeErrF64
    rw [if_neg (by simp [hc]), if_neg (by decide), if_neg (by omega)]

theorem no_finiteness_check_witness :
    superquadricErrF64 [F64.fin 0, F64.fin 0, F64.fin 0] [F64.fin 1, F64.fin 1, F64.fin 1]
        [F64.nan, F64.fin 2, F64.fin 2] 2 2 = none ∧
    hemisphereErrF64 [F64.fin 0, F64.fin 0, F64.fin 0] F64.posInf 2 2 = none ∧
    sphereErrF64 [F64.fin 0, F64.fin 0, F64.fin 0] F64.nan 2 2 = none ∧
    planeErrF64 [F64.fin 0, F64.fin 0, F64.fin 0] [F64.fin 0, F64.fin 0, F64.nan] 2 2 = none :=
  no_finiteness_check [F64.fin 0, F64.fin 0, F64.fin 0] [F64.fin 1, F64.fin 1, F64.fin 1] 2 2
    rfl rfl (by decide) (by decide)

/-- C10 counterexample: k[0] = -0.0 is an exponent component equal to zero
under IEEE equality, and the otherwise-valid call passes validation (so it
returns Ok), but the internal exponent 2 / k[0] evaluates to negative
infinity, not positive infinity as the claim states. -/
theorem zero_exponent_negzero_cex :
    superquadricErrF64 [F64.fin 0, F64.fin 0, F64.fin 0] [F64.fin 1, F64.fin 1, F64.fin 1]
        [F64.negZero, F64.fin 2, F64.fin 2] 1 1 = none ∧
    F64.isZero F64.negZero = true ∧
    F64.div (F64.fin 2) F64.negZero = F64.negInf ∧
    F64.negInf ≠ F64.posInf := by
  decide

/-- C10 (amended): draw_superquadric accepts an exponent component equal to
zero: for every otherwise-valid input whose k[0] is a zero (+0.0 or -0.0, both
of which pass the k[i] < 0.0 check), validation passes and the call returns
Ok; the internal exponent 2 / k[0] evaluates to positive infinity for +0.0 and
to negative infinity for -0.0; with exponent negative infinity the IEEE power
maps every base in [0, 1) to positive infinity, so the returned mesh can
contain non-finite coordinate values, while with exponent positive infinity
the power of a base in [0, 1] is 0 or 1. -/
theorem zero_exponent_accepted (c r : List F64) (k0 k1 k2 : F64) (n_alpha n_theta : ℕ)
    (hc : c.length = 3) (hr : r.length = 3) (h1 : 1 ≤ n_alpha) (h2 : 1 ≤ n_theta)
    (hk0 : F64.isZero k0 = true)
    (hk1 : F64.lt k1 (F64.fin 0) = false) (hk2 : F64.lt k2 (F64.fin 0) = false) :
    superquadricErrF64 c r [k0, k1, k2] n_alpha n_theta = none ∧
    F64.div (F64.fin 2) (F64.fin 0) = F64.posInf ∧
    F64.div (F64.fin 2) F64.negZero = F64.negInf ∧
    (∀ b : ℚ, 0 ≤ b → b < 1 → F64.powInf b F64.negInf = F64.posInf) ∧
    (∀ b : ℚ, 0 ≤ b → b ≤ 1 →
      F64.powInf b F64.posInf = F64.fin 0 ∨ F64.powInf b F64.posInf = F64.fin 1) := by
  have hk0' : F64.lt k0 (F64.fin 0) = false := by
    cases k0 <;> simp_all [F64.isZero, F64.lt, F64.ratVal]
  refine ⟨?_, by decide, by decide, ?_, ?_⟩
  · unfold superquadricErrF64
    rw [if_neg (by simp [hc, hr]), if_neg (by omega),
      if_neg (by simp [List.getD_cons_zero, List.getD_cons_succ, hk0', hk1, hk2])]
  · intro b hb0 hb1
    simp only [F64.powInf]
    rw [if_neg hb1.ne, if_pos hb1]
  · intro b hb0 hb1
    rcases eq_or_lt_of_le hb1 with h | h
    · right
      simp [F64.powInf, h]
    · left
      simp only [F64.powInf]
      rw [if_neg h.ne, if_pos h]

theorem zero_exponent_accepted_witness :
    superquadricErrF64 [F64.fin 0, F64.fin 0, F64.fin 0] [F64.fin 1, F64.fin 1, F64.fin 1]
        [F64.fin 0, F64.fin 2, F64.fin 2] 1 1 = none ∧
    F64.div (F64.fin 2) (F64.fin 0) = F64.posInf ∧
    F64.div (F64.fin 2) F64.negZero = F64.negInf ∧
    (∀ b : ℚ, 0 ≤ b → b < 1 → F64.powInf b F64.negInf = F64.posInf) ∧
    (∀ b : ℚ, 0 ≤ b → b ≤ 1 →
      F64.powInf b F64.posInf = F64.fin 0 ∨ F64.powInf b F64.posInf = F64.fin 1) :=
  zero_exponent_accepted [F64.fin 0, F64.fin 0, F64.fin 0] [F64.fin 1, F64.fin 1, F64.fin 1]
    (F64.fin 0) (F64.fin 2) (F64.fin 2) 1 1 rfl rfl (by decide) (by decide)
    (by decide) (by decide) (by decide)

end Plotpy
